import Mathlib

/-!
Shallow embedding of the tile acquisition and stitching engine of
`src/imagen.py` (class `Imagen` and the helper `tile_xy_to_quadkey`).

Conventions of the embedding:
* PIL images are modelled as a structure with a width, a height and a pixel
  function; `Image.new("RGB", (w, h), color)` and `Image.paste` are modelled
  field by field.
* Raw response / cache bytes are modelled by what PIL decoding does to them:
  `Bytes.good img` decodes to `img`, `Bytes.bad` raises on decode.
* The disk tile cache is a key → bytes association list; `_cache_path` keys a
  file by (provider, z, x, y).
* The network is part of the environment: `net k n` is what the n-th HTTP GET
  for tile key `k` does (a response, or an `httpx.HTTPError`), `wms bbox` is
  what the WMS GetMap for `bbox` does.
* Sleeps are recorded in milliseconds (the code starts at `backoff = 0.5`
  seconds, i.e. 500 ms, and doubles).
* The concurrent worker pool of `_stitch_async` writes each outcome at its own
  grid index and tile keys of distinct indices are distinct, so the pool is
  modelled by running the workers in index order.
-/

/-- An RGB color. -/
abbrev Color := Nat × Nat × Nat

/-- A PIL image: dimensions plus pixel lookup. -/
structure Img where
  width : Nat
  height : Nat
  pix : Nat → Nat → Color

/-- `Image.new("RGB", (w, h), c)`. -/
def Img.new (w h : Nat) (c : Color) : Img :=
  ⟨w, h, fun _ _ => c⟩

/-- `out.paste(img, (x0, y0))`: overwrite the rectangle of `img` at offset
`(x0, y0)`; dimensions of `out` are unchanged. -/
def Img.paste (out : Img) (img : Img) (x0 y0 : Nat) : Img :=
  { out with
    pix := fun x y =>
      if x0 ≤ x ∧ x < x0 + img.width ∧ y0 ≤ y ∧ y < y0 + img.height then
        img.pix (x - x0) (y - y0)
      else out.pix x y }

/-- Python `max` over a list of naturals (all uses are on nonempty lists). -/
def maxList (l : List Nat) : Nat := l.foldr max 0

/-- The paste loop of `Imagen._hstack`: paste images left to right at
cumulative x-offsets. -/
def hstackLoop : List Img → Img → Nat → Img
  | [], out, _ => out
  | img :: rest, out, xo => hstackLoop rest (out.paste img xo 0) (xo + img.width)

/-- `Imagen._hstack(images)`. -/
def hstack (images : List Img) : Img :=
  let total_width := (images.map Img.width).sum
  let max_height := maxList (images.map Img.height)
  hstackLoop images (Img.new total_width max_height (0, 0, 0)) 0

/-- The paste loop of `Imagen._vstack`: paste images top to bottom at
cumulative y-offsets. -/
def vstackLoop : List Img → Img → Nat → Img
  | [], out, _ => out
  | img :: rest, out, yo => vstackLoop rest (out.paste img 0 yo) (yo + img.height)

/-- `Imagen._vstack(images)`. -/
def vstack (images : List Img) : Img :=
  let max_width := maxList (images.map Img.width)
  let total_height := (images.map Img.height).sum
  vstackLoop images (Img.new max_width total_height (0, 0, 0)) 0

/-- Helper for Bing: `tile_xy_to_quadkey`, the digit loop.
`quadkeyLoop x y i` is the list of digit strings produced for Python loop
indices `i, i-1, ..., 1`; the digit for loop index `i` uses `mask = 1 << (i-1)`. -/
def quadkeyLoop (x y : Nat) : Nat → List String
  | 0 => []
  | i + 1 =>
    let mask := 1 <<< i
    let bit := (if x &&& mask ≠ 0 then 1 else 0) + (if y &&& mask ≠ 0 then 2 else 0)
    toString bit :: quadkeyLoop x y i

/-- `tile_xy_to_quadkey(x, y, z)` from `src/imagen.py`. -/
def tile_xy_to_quadkey (x y z : Nat) : String :=
  String.join (quadkeyLoop x y z)

/-- Python exceptions that the engine raises or catches. -/
inductive PyErr where
  | valueError (msg : String)
  | runtimeError (msg : String)
  | decodeError
  | isADirectoryError
deriving DecidableEq

/-- One cached or fetched byte string, modelled by its decoding behaviour. -/
inductive Bytes where
  | good (img : Img)
  | bad

/-- `Image.open(BytesIO(b)).convert("RGB")`, as a total function. -/
def decodeBytes : Bytes → Option Img
  | .good i => some i
  | .bad => none

/-- A cache key: `_cache_path(provider, z, x, y)` determines one file per
(provider, z, x, y). -/
structure TileKey where
  provider : String
  z : Nat
  x : Int
  y : Int
deriving DecidableEq

/-- The on-disk tile cache, as key → bytes. -/
abbrev Cache := List (TileKey × Bytes)

/-- Cache read: decode attempt happens at the caller. -/
def cacheGet (c : Cache) (k : TileKey) : Option Bytes :=
  (c.find? (fun p => decide (p.1 = k))).map (·.2)

/-- Cache write (`put` overwrites any prior content for that key). -/
def cachePut (c : Cache) (k : TileKey) (b : Bytes) : Cache :=
  (k, b) :: c.eraseP (fun p => decide (p.1 = k))

/-- `cache_file.unlink()`. -/
def cacheDel (c : Cache) (k : TileKey) : Cache :=
  c.eraseP (fun p => decide (p.1 = k))

/-- One event at the network boundary: a response, or `httpx.HTTPError`. -/
structure NetResp where
  status : Nat
  isImage : Bool
  body : Bytes

/-- What a network call does. -/
inductive NetEvent where
  | resp (r : NetResp)
  | transportError

/-- A record of one network request issued by the engine. -/
inductive NetReq where
  | tileGet (k : TileKey) (attempt : Nat)
  | wmsGet (bbox : ℚ × ℚ × ℚ × ℚ)
deriving DecidableEq

/-- The engine's environment: constructor arguments plus the external world
(network behaviour and the `mercantile.tile` library function). -/
structure Env where
  provider : String
  key : Option String
  force : Bool
  net : TileKey → Nat → NetEvent
  wms : ℚ × ℚ × ℚ × ℚ → NetEvent
  mercantile : ℚ → ℚ → Nat → Int × Int

/-- Aggregate output of one `_fetch_tile_async` call: the returned image or
raised exception, the cache afterwards, the GETs issued and the sleeps done. -/
structure FetchOut where
  result : Except PyErr Img
  cache : Cache
  reqs : List NetReq
  sleeps : List Nat

/-- `Imagen._esri_url`. -/
def esri_url (x y : Int) (z : Nat) : String :=
  "https://services.arcgisonline.com/ArcGIS/rest/services/World_Imagery/MapServer/tile/"
    ++ toString z ++ "/" ++ toString y ++ "/" ++ toString x

/-- `Imagen._google_url`: raises `ValueError` when no key is given. -/
def google_url (x y : Int) (z : Nat) (key : Option String) : Except PyErr String :=
  match key with
  | none => .error (.valueError "Google provider requires API key parameter when building URLs.")
  | some k =>
    .ok ("https://mt1.google.com/vt/lyrs=s&x=" ++ toString x ++ "&y=" ++ toString y
      ++ "&z=" ++ toString z ++ "&key=" ++ k)

/-- `Imagen._bing_url`: raises `ValueError` when no key is given; otherwise
addresses the tile by its quadkey. -/
def bing_url (x y : Int) (z : Nat) (key : Option String) : Except PyErr String :=
  match key with
  | none => .error (.valueError "Bing provider requires a Bing Maps key argument.")
  | some k =>
    .ok ("https://ecn.t3.tiles.virtualearth.net/tiles/a"
      ++ tile_xy_to_quadkey x.toNat y.toNat z ++ ".jpeg?g=1&key=" ++ k)

/-- The provider branch of `_fetch_tile_async` that builds the request URL. -/
def buildTileURL (provider : String) (x y : Int) (z : Nat) (key : Option String) :
    Except PyErr String :=
  if provider = "esri" then .ok (esri_url x y z)
  else if provider = "google" then google_url x y z key
  else if provider = "bing" then bing_url x y z key
  else .error (.valueError ("Unknown provider for tile fetch: " ++ provider))

/-- The retry loop of `_fetch_tile_async` (`for attempt in range(4)`), run on
the list of remaining attempt indices. On a 200/image response the body is
written to the cache and then decoded (a decode failure at that point
propagates: it is not an `httpx.HTTPError`, so the loop does not catch it).
On any other response or a transport error the loop sleeps `backoff` and
doubles it, except at `attempt == 3` where it raises. The `[]` case is
Python's loop falling through, which cannot happen on `[0, 1, 2, 3]`. -/
def fetchLoop (env : Env) (k : TileKey) : List Nat → Cache → Nat → FetchOut
  | [], cache, _ => ⟨.error (.runtimeError "loop fell through"), cache, [], []⟩
  | attempt :: rest, cache, backoff =>
    match env.net k attempt with
    | .resp r =>
      if r.status = 200 ∧ r.isImage = true then
        let cache1 := cachePut cache k r.body
        match decodeBytes r.body with
        | some img => ⟨.ok img, cache1, [.tileGet k attempt], []⟩
        | none => ⟨.error .decodeError, cache1, [.tileGet k attempt], []⟩
      else
        if attempt = 3 then
          ⟨.error (.runtimeError "Bad response"), cache, [.tileGet k attempt], []⟩
        else
          let o := fetchLoop env k rest cache (backoff * 2)
          ⟨o.result, o.cache, .tileGet k attempt :: o.reqs, backoff :: o.sleeps⟩
    | .transportError =>
      if attempt = 3 then
        ⟨.error (.runtimeError "HTTP error fetching"), cache, [.tileGet k attempt], []⟩
      else
        let o := fetchLoop env k rest cache (backoff * 2)
        ⟨o.result, o.cache, .tileGet k attempt :: o.reqs, backoff :: o.sleeps⟩

/-- The network part of `_fetch_tile_async`: build the URL (configuration
errors raise here, before any GET), then run the four attempts with an
initial backoff of 0.5 s = 500 ms. -/
def fetchNet (env : Env) (cache : Cache) (k : TileKey) : FetchOut :=
  match buildTileURL env.provider k.x k.y k.z env.key with
  | .error e => ⟨.error e, cache, [], []⟩
  | .ok _ => fetchLoop env k [0, 1, 2, 3] cache 500

/-- `Imagen._fetch_tile_async(x, y, z)`: refuse gibs; consult the cache unless
`force` (a hit that decodes returns at once; a hit that fails to decode is
unlinked and falls through); then fetch from the network. -/
def fetch_tile_async (env : Env) (cache : Cache) (x y : Int) (z : Nat) : FetchOut :=
  if env.provider = "gibs" then
    ⟨.error (.runtimeError "GIBS WMS should use getTiles(...) directly (WMS), not this tile fetch path."),
      cache, [], []⟩
  else
    let k : TileKey := ⟨env.provider, z, x, y⟩
    match cacheGet cache k, env.force with
    | some b, false =>
      (match decodeBytes b with
       | some img => ⟨.ok img, cache, [], []⟩
       | none => fetchNet env (cacheDel cache k) k)
    | _, _ => fetchNet env cache k

/-- The blank tile a failed worker stores: `Image.new("RGB", (256, 256), (200, 200, 200))`. -/
def placeholderTile : Img := Img.new 256 256 (200, 200, 200)

/-- Aggregate output of the worker pool of `_stitch_async`: the outcome at
every grid index in index order, plus cache / network / sleep / warning
effects. -/
structure PoolOut where
  outs : List Img
  cache : Cache
  reqs : List NetReq
  sleeps : List Nat
  warns : Nat

/-- The worker pool of `_stitch_async`: one worker per coordinate; a worker
stores the fetched image at its index, and on any exception prints a warning
and stores a 256×256 blank tile instead. Workers run under a semaphore and
write to distinct indices; the pool is modelled by running them in index
order. -/
def runWorkers (env : Env) : List (Int × Int × Nat) → Cache → PoolOut
  | [], cache => ⟨[], cache, [], [], 0⟩
  | (x, y, z) :: rest, cache =>
    let f := fetch_tile_async env cache x y z
    let p := runWorkers env rest f.cache
    match f.result with
    | .ok img => ⟨img :: p.outs, p.cache, f.reqs ++ p.reqs, f.sleeps ++ p.sleeps, p.warns⟩
    | .error _ =>
      ⟨placeholderTile :: p.outs, p.cache, f.reqs ++ p.reqs, f.sleeps ++ p.sleeps, p.warns + 1⟩

/-- The coordinate enumeration of `_stitch_async`: `dy` outer from `-radius`
to `radius`, `dx` inner, appending `(center.x + dx, center.y + dy, zoom)`. -/
def gridCoords (cx cy : Int) (zoom : Nat) (radius : Nat) : List (Int × Int × Nat) :=
  (List.range (2 * radius + 1)).flatMap (fun (j : Nat) =>
    (List.range (2 * radius + 1)).map (fun (i : Nat) =>
      (cx + (i : Int) - (radius : Int), cy + (j : Int) - (radius : Int), zoom)))

/-- The row-building loop of `_stitch_async`: row `r` is the horizontal stitch
of `results[r*side + c]` for `c = 0 .. side-1`. -/
def buildRows (results : List Img) (side : Nat) : List Img :=
  (List.range side).map (fun r =>
    hstack ((List.range side).map (fun c =>
      results.getD (r * side + c) (Img.new 0 0 (0, 0, 0)))))

/-- The temporary row files of disk mode. The file for row `r` is
`cache_dir / "row_r.png"`: its name is determined by `r` alone and is distinct
for distinct `r`, so the store is keyed by the row index. -/
abbrev RowStore := List (Nat × Img)

/-- `row_img.save(row_path)` (PNG is lossless: the saved pixels are the row's
pixels; overwrites any existing file of that name). -/
def storeSave (st : RowStore) (r : Nat) (img : Img) : RowStore :=
  (r, img) :: st.eraseP (fun p => decide (p.1 = r))

/-- `Image.open(row_path)` (raises — `none` — when the file does not exist). -/
def storeOpen (st : RowStore) (r : Nat) : Option Img :=
  (st.find? (fun p => decide (p.1 = r))).map (·.2)

/-- `Path(p).unlink()` for a row file. -/
def storeDelete (st : RowStore) (r : Nat) : RowStore :=
  st.eraseP (fun p => decide (p.1 = r))

/-- Disk mode's saving of row strips: row `r₀ + i` of the list is saved as row
file `r₀ + i`, in increasing order (first call has `r₀ = 0`). -/
def saveRowsAux : RowStore → List Img → Nat → RowStore
  | st, [], _ => st
  | st, row :: rest, r => saveRowsAux (storeSave st r row) rest (r + 1)

/-- Disk mode's reopening: `[Image.open(p).convert("RGB") for p in rows]`,
opening row files `r₀, r₀ + 1, ...` (`n` of them); `none` if any is missing. -/
def openRowsAux (st : RowStore) : Nat → Nat → Option (List Img)
  | _, 0 => some []
  | r, n + 1 =>
    match storeOpen st r with
    | none => none
    | some img => (openRowsAux st (r + 1) n).map (img :: ·)

/-- Stitching mode: `mode == "memory"` or `mode == "disk"`. -/
inductive Mode where
  | memory
  | disk
deriving DecidableEq

/-- The assembly phase of `_stitch_async`: build the row strips; in memory
mode stack them directly; in disk mode save each to its row file, reopen all
of them in row order, stack, then delete the row files. -/
def assemble (mode : Mode) (results : List Img) (side : Nat) (store : RowStore) :
    Option Img × RowStore :=
  let rows := buildRows results side
  match mode with
  | .memory => (some (vstack rows), store)
  | .disk =>
    let store1 := saveRowsAux store rows 0
    match openRowsAux store1 0 side with
    | none => (none, store1)
    | some pil_rows =>
      let final := vstack pil_rows
      let store2 := (List.range side).foldl (fun st r => storeDelete st r) store1
      (some final, store2)

/-- Aggregate output of `_stitch_async`. -/
structure StitchOut where
  result : Except PyErr Img
  cache : Cache
  reqs : List NetReq
  sleeps : List Nat
  warns : Nat
  store : RowStore

/-- `Imagen._stitch_async(lat, lon, zoom, radius, mode)`: refuse gibs before
anything else; enumerate the `(2·radius+1)²` coordinates around the center
tile; run the worker pool; assemble. -/
def stitch_async (env : Env) (cache : Cache) (lat lon : ℚ) (zoom radius : Nat)
    (mode : Mode) (store : RowStore) : StitchOut :=
  if env.provider = "gibs" then
    ⟨.error (.runtimeError "GIBS does not support stitched tiles. Use ESRI/Google/Bing for stitching."),
      cache, [], [], 0, store⟩
  else
    let center := env.mercantile lon lat zoom
    let coords := gridCoords center.1 center.2 zoom radius
    let p := runWorkers env coords cache
    let side := radius * 2 + 1
    match assemble mode p.outs side store with
    | (some img, store1) => ⟨.ok img, p.cache, p.reqs, p.sleeps, p.warns, store1⟩
    | (none, store1) => ⟨.error .decodeError, p.cache, p.reqs, p.sleeps, p.warns, store1⟩

/-- `Imagen.getMegaStitchedTiles`: the synchronous wrapper around
`_stitch_async`. -/
def getMegaStitchedTiles (env : Env) (cache : Cache) (lat lon : ℚ) (zoom radius : Nat)
    (mode : Mode) (store : RowStore) : StitchOut :=
  stitch_async env cache lat lon zoom radius mode store

/-- The `scale_deg` zoom → half-span table of `_getGIBS_WMS`
(`{2: 20, 3: 10, 4: 5, 5: 2, 6: 1}.get(zoom, 5)`). -/
def scale_deg (zoom : Nat) : ℚ :=
  if zoom = 2 then 20
  else if zoom = 3 then 10
  else if zoom = 4 then 5
  else if zoom = 5 then 2
  else if zoom = 6 then 1
  else 5

/-- The bbox `_getGIBS_WMS` puts in the GetMap query:
`(lat − span, lon − span, lat + span, lon + span)`. -/
def gibsBBox (lat lon : ℚ) (zoom : Nat) : ℚ × ℚ × ℚ × ℚ :=
  let s := scale_deg zoom
  (lat - s, lon - s, lat + s, lon + s)

/-- `Imagen._getGIBS_WMS(lat, lon, zoom)`: one GetMap request; non-200 or
non-image responses raise `RuntimeError`; a transport error from `httpx.get`
propagates; otherwise decode the body. No cache is consulted or written. -/
def getGIBS_WMS (env : Env) (lat lon : ℚ) (zoom : Nat) :
    Except PyErr Img × List NetReq :=
  let bbox := gibsBBox lat lon zoom
  match env.wms bbox with
  | .transportError => (.error (.runtimeError "httpx transport error"), [.wmsGet bbox])
  | .resp r =>
    if r.status ≠ 200 ∨ r.isImage = false then
      (.error (.runtimeError "GIBS WMS failed"), [.wmsGet bbox])
    else
      match decodeBytes r.body with
      | some img => (.ok img, [.wmsGet bbox])
      | none => (.error .decodeError, [.wmsGet bbox])

/-- `Imagen.getTiles(lat, lon, zoom)`: for gibs go straight to WMS (the `key`
and `force` arguments are not consulted and the cache is untouched);
otherwise resolve the center tile and run the cached tile fetch. Returns
(result, cache after, requests, sleeps). -/
def getTiles (env : Env) (cache : Cache) (lat lon : ℚ) (zoom : Nat) :
    Except PyErr Img × Cache × List NetReq × List Nat :=
  if env.provider = "gibs" then
    let w := getGIBS_WMS env lat lon zoom
    (w.1, cache, w.2, [])
  else
    let t := env.mercantile lon lat zoom
    let f := fetch_tile_async env cache t.1 t.2 zoom
    (f.result, f.cache, f.reqs, f.sleeps)

/-- Python `str.lower()` on the provider argument (ASCII, per character). -/
def pyLower (s : String) : String :=
  ⟨s.data.map Char.toLower⟩

/-- `Imagen.__init__`: reject provider `"osm"` (case-insensitively) with
`ValueError` before anything else; otherwise the stored provider is the
lower-cased argument. -/
def imagenInit (provider : String) : Except PyErr String :=
  if pyLower provider = "osm" then
    .error (.valueError "OSM cannot be used programmatically; choose esri/google/bing/gibs.")
  else
    .ok (pyLower provider)

/-- A directory tree, for the `clear_cache` model. -/
inductive FsEntry where
  | file (name : String)
  | dir (name : String) (children : List FsEntry)

mutual

/-- `child.rglob("*")`: every strict descendant of the entry, each directory
listed before its own descendants. A file has no descendants. -/
def rglobAll : FsEntry → List FsEntry
  | .file _ => []
  | .dir _ children => children ++ rglobList children

/-- `rglobAll` over a list of entries, in order. -/
def rglobList : List FsEntry → List FsEntry
  | [] => []
  | e :: rest => rglobAll e ++ rglobList rest

end

/-- `p.unlink()` applied to each entry in turn: unlinking a file succeeds,
unlinking a directory raises `IsADirectoryError`. -/
def unlinkEntries : List FsEntry → Except PyErr Unit
  | [] => .ok ()
  | .file _ :: rest => unlinkEntries rest
  | .dir _ _ :: _ => .error .isADirectoryError

/-- `Imagen.clear_cache`: for each child of the cache root, if it is a
directory, unlink every entry of `child.rglob("*")` and then remove the
directory (when all unlinks succeeded every descendant was a file, so the
`rmdir` succeeds); files directly under the root are skipped. -/
def clearTop : List FsEntry → Except PyErr Unit
  | [] => .ok ()
  | .file _ :: rest => clearTop rest
  | .dir n cs :: rest =>
    match unlinkEntries (rglobAll (.dir n cs)) with
    | .error e => .error e
    | .ok _ => clearTop rest

/-- `Imagen.clear_cache()` on a cache root with the given children. -/
def clear_cache (root : List FsEntry) : Except PyErr Unit :=
  clearTop root

/-! ### Association-list lemmas for the cache and the row-file store -/

theorem find?_eraseP_of_imp {α : Type} (l : List α) (p q : α → Bool)
    (h : ∀ x, q x = true → p x = false) :
    (l.eraseP q).find? p = l.find? p := by
  induction l with
  | nil => rfl
  | cons a t ih =>
    by_cases hq : q a = true
    · rw [List.eraseP_cons_of_pos hq, List.find?_cons_of_neg _ (by simp [h a hq])]
    · rw [List.eraseP_cons_of_neg (by simpa using hq)]
      by_cases hp : p a = true
      · rw [List.find?_cons_of_pos _ hp, List.find?_cons_of_pos _ hp]
      · rw [List.find?_cons_of_neg _ (by simpa using hp),
          List.find?_cons_of_neg _ (by simpa using hp), ih]

theorem cacheGet_put_self (c : Cache) (k : TileKey) (b : Bytes) :
    cacheGet (cachePut c k b) k = some b := by
  simp [cacheGet, cachePut, List.find?_cons_of_pos]

theorem cacheGet_put_other (c : Cache) (k k' : TileKey) (b : Bytes) (h : k' ≠ k) :
    cacheGet (cachePut c k b) k' = cacheGet c k' := by
  unfold cacheGet cachePut
  rw [List.find?_cons_of_neg _ (by simp [Ne.symm h]),
    find?_eraseP_of_imp _ _ _ (fun x hx => by
      simp only [decide_eq_true_eq] at hx
      simp [hx, Ne.symm h])]

theorem storeOpen_save_self (st : RowStore) (r : Nat) (img : Img) :
    storeOpen (storeSave st r img) r = some img := by
  simp [storeOpen, storeSave, List.find?_cons_of_pos]

theorem storeOpen_save_other (st : RowStore) (r r' : Nat) (img : Img) (h : r' ≠ r) :
    storeOpen (storeSave st r img) r' = storeOpen st r' := by
  unfold storeOpen storeSave
  rw [List.find?_cons_of_neg _ (by simp [Ne.symm h]),
    find?_eraseP_of_imp _ _ _ (fun x hx => by
      simp only [decide_eq_true_eq] at hx
      simp [hx, Ne.symm h])]

/-! ### Dimension lemmas for the stacking helpers -/

theorem hstackLoop_width : ∀ (l : List Img) (out : Img) (xo : Nat),
    (hstackLoop l out xo).width = out.width
  | [], _, _ => rfl
  | _ :: rest, out, xo => hstackLoop_width rest _ _

theorem hstackLoop_height : ∀ (l : List Img) (out : Img) (xo : Nat),
    (hstackLoop l out xo).height = out.height
  | [], _, _ => rfl
  | _ :: rest, out, xo => hstackLoop_height rest _ _

theorem vstackLoop_width : ∀ (l : List Img) (out : Img) (yo : Nat),
    (vstackLoop l out yo).width = out.width
  | [], _, _ => rfl
  | _ :: rest, out, yo => vstackLoop_width rest _ _

theorem vstackLoop_height : ∀ (l : List Img) (out : Img) (yo : Nat),
    (vstackLoop l out yo).height = out.height
  | [], _, _ => rfl
  | _ :: rest, out, yo => vstackLoop_height rest _ _

theorem hstack_width (l : List Img) : (hstack l).width = (l.map Img.width).sum :=
  hstackLoop_width l _ 0

theorem hstack_height (l : List Img) : (hstack l).height = maxList (l.map Img.height) :=
  hstackLoop_height l _ 0

theorem vstack_width (l : List Img) : (vstack l).width = maxList (l.map Img.width) :=
  vstackLoop_width l _ 0

theorem vstack_height (l : List Img) : (vstack l).height = (l.map Img.height).sum :=
  vstackLoop_height l _ 0

theorem maxList_all_eq (l : List Nat) (a : Nat) (hne : l ≠ []) (h : ∀ b ∈ l, b = a) :
    maxList l = a := by
  induction l with
  | nil => exact absurd rfl hne
  | cons hd tl ih =>
    rcases tl with _ | ⟨hd2, tl2⟩
    · simp [maxList, h hd (by simp)]
    · have h1 := h hd (by simp)
      have h2 : maxList (hd2 :: tl2) = a := ih (by simp) (fun b hb => h b (by simp [hb]))
      simp only [maxList, List.foldr] at h2 ⊢
      omega

theorem sum_all_eq (l : List Nat) (a : Nat) (h : ∀ b ∈ l, b = a) :
    l.sum = l.length * a := by
  induction l with
  | nil => simp
  | cons hd tl ih =>
    have h1 := h hd (by simp)
    have h2 := ih (fun b hb => h b (by simp [hb]))
    simp [h1, h2]
    ring

/-! ### Disk-mode row-file roundtrip -/

theorem storeOpen_saveRows_lt (rows : List Img) (st : RowStore) (r r' : Nat) (h : r' < r) :
    storeOpen (saveRowsAux st rows r) r' = storeOpen st r' := by
  induction rows generalizing st r with
  | nil => rfl
  | cons row rest ih =>
    rw [saveRowsAux, ih _ (r + 1) (by omega), storeOpen_save_other _ _ _ _ (by omega)]

theorem openRows_saveRows (rows : List Img) (st : RowStore) (r : Nat) :
    openRowsAux (saveRowsAux st rows r) r rows.length = some rows := by
  induction rows generalizing st r with
  | nil => rfl
  | cons row rest ih =>
    show openRowsAux (saveRowsAux (storeSave st r row) rest (r + 1)) r (rest.length + 1) = _
    rw [openRowsAux, storeOpen_saveRows_lt rest _ (r + 1) r (by omega),
      storeOpen_save_self, ih (storeSave st r row) (r + 1)]
    rfl

/-! ### Assembly lemmas -/

theorem buildRows_length (results : List Img) (side : Nat) :
    (buildRows results side).length = side := by
  simp [buildRows]

theorem assemble_fst (mode : Mode) (results : List Img) (side : Nat) (store : RowStore) :
    (assemble mode results side store).1 = some (vstack (buildRows results side)) := by
  cases mode with
  | memory => rfl
  | disk =>
    have h := openRows_saveRows (buildRows results side) store 0
    rw [buildRows_length] at h
    simp [assemble, h]

theorem stitch_result (env : Env) (cache : Cache) (lat lon : ℚ) (zoom radius : Nat)
    (mode : Mode) (store : RowStore) (h : env.provider ≠ "gibs") :
    (stitch_async env cache lat lon zoom radius mode store).result =
      .ok (vstack (buildRows
        (runWorkers env (gridCoords (env.mercantile lon lat zoom).1
          (env.mercantile lon lat zoom).2 zoom radius) cache).outs
        (radius * 2 + 1))) := by
  simp only [stitch_async, if_neg h]
  split
  · next img store1 heq =>
    have hf := assemble_fst mode
      (runWorkers env (gridCoords (env.mercantile lon lat zoom).1
        (env.mercantile lon lat zoom).2 zoom radius) cache).outs (radius * 2 + 1) store
    rw [heq] at hf
    simp only [Option.some.injEq] at hf
    simp [hf]
  · next store1 heq =>
    have hf := assemble_fst mode
      (runWorkers env (gridCoords (env.mercantile lon lat zoom).1
        (env.mercantile lon lat zoom).2 zoom radius) cache).outs (radius * 2 + 1) store
    rw [heq] at hf
    simp at hf

/-! ### Worker-pool lemmas -/

theorem runWorkers_length (env : Env) (coords : List (Int × Int × Nat)) (cache : Cache) :
    (runWorkers env coords cache).outs.length = coords.length := by
  induction coords generalizing cache with
  | nil => rfl
  | cons c rest ih =>
    obtain ⟨x, y, z⟩ := c
    simp only [runWorkers]
    split <;> simp [ih]

theorem gridCoords_length (cx cy : Int) (zoom radius : Nat) :
    (gridCoords cx cy zoom radius).length = (2 * radius + 1) * (2 * radius + 1) := by
  unfold gridCoords
  rw [List.length_flatMap, sum_all_eq _ (2 * radius + 1) (by
    intro b hb
    simp only [List.mem_map, Function.comp] at hb
    obtain ⟨j, hj, rfl⟩ := hb
    rw [List.length_map, List.length_range])]
  rw [List.length_map, List.length_range]

/-! ### Fetch lemmas -/

/-- An attempt the retry loop treats as failed: a transport error, or a
response that is not (status 200 and image content type). -/
def failedAttempt : NetEvent → Prop
  | .resp r => ¬(r.status = 200 ∧ r.isImage = true)
  | .transportError => True

theorem fetch_hit (env : Env) (cache : Cache) (x y : Int) (z : Nat) (b : Bytes) (img : Img)
    (hprov : env.provider ≠ "gibs") (hforce : env.force = false)
    (hhit : cacheGet cache ⟨env.provider, z, x, y⟩ = some b)
    (hdec : decodeBytes b = some img) :
    fetch_tile_async env cache x y z = ⟨.ok img, cache, [], []⟩ := by
  unfold fetch_tile_async
  rw [if_neg hprov]
  simp only [hhit, hforce, hdec]

theorem fetch_miss (env : Env) (cache : Cache) (x y : Int) (z : Nat)
    (hprov : env.provider ≠ "gibs")
    (hmiss : cacheGet cache ⟨env.provider, z, x, y⟩ = none) :
    fetch_tile_async env cache x y z = fetchNet env cache ⟨env.provider, z, x, y⟩ := by
  unfold fetch_tile_async
  rw [if_neg hprov]
  simp only [hmiss]

theorem fetch_corrupt (env : Env) (cache : Cache) (x y : Int) (z : Nat) (b : Bytes)
    (hprov : env.provider ≠ "gibs") (hforce : env.force = false)
    (hhit : cacheGet cache ⟨env.provider, z, x, y⟩ = some b)
    (hdec : decodeBytes b = none) :
    fetch_tile_async env cache x y z =
      fetchNet env (cacheDel cache ⟨env.provider, z, x, y⟩) ⟨env.provider, z, x, y⟩ := by
  unfold fetch_tile_async
  rw [if_neg hprov]
  simp only [hhit, hforce, hdec]

theorem fetchNet_first_good (env : Env) (cache : Cache) (k : TileKey) (u : String) (b : Bytes)
    (hurl : buildTileURL env.provider k.x k.y k.z env.key = .ok u)
    (hnet : env.net k 0 = .resp ⟨200, true, b⟩) :
    fetchNet env cache k =
      ⟨match decodeBytes b with
        | some img => .ok img
        | none => .error .decodeError,
        cachePut cache k b, [.tileGet k 0], []⟩ := by
  unfold fetchNet
  rw [hurl]
  show fetchLoop env k (0 :: [1, 2, 3]) cache 500 = _
  unfold fetchLoop
  rw [hnet]
  simp only [if_pos (by exact ⟨rfl, rfl⟩ : (200 = 200 ∧ (true : Bool) = true))]
  cases hd : decodeBytes b <;> simp [hd]

theorem fetchLoop_fail_step (env : Env) (k : TileKey) (a : Nat) (rest : List Nat)
    (cache : Cache) (backoff : Nat)
    (hf : failedAttempt (env.net k a)) (ha : a ≠ 3) :
    fetchLoop env k (a :: rest) cache backoff =
      ⟨(fetchLoop env k rest cache (backoff * 2)).result,
        (fetchLoop env k rest cache (backoff * 2)).cache,
        .tileGet k a :: (fetchLoop env k rest cache (backoff * 2)).reqs,
        backoff :: (fetchLoop env k rest cache (backoff * 2)).sleeps⟩ := by
  cases hE : env.net k a with
  | transportError =>
    conv_lhs => rw [fetchLoop]
    rw [hE]
    simp [ha]
  | resp r =>
    rw [hE] at hf
    simp only [failedAttempt] at hf
    conv_lhs => rw [fetchLoop]
    rw [hE]
    simp only [if_neg hf, if_neg ha]

theorem fetchLoop_fail_last (env : Env) (k : TileKey) (rest : List Nat)
    (cache : Cache) (backoff : Nat) (hf : failedAttempt (env.net k 3)) :
    ∃ m, fetchLoop env k (3 :: rest) cache backoff =
      ⟨.error (.runtimeError m), cache, [.tileGet k 3], []⟩ := by
  cases hE : env.net k 3 with
  | transportError =>
    refine ⟨"HTTP error fetching", ?_⟩
    conv_lhs => rw [fetchLoop]
    rw [hE]
    simp
  | resp r =>
    rw [hE] at hf
    simp only [failedAttempt] at hf
    refine ⟨"Bad response", ?_⟩
    conv_lhs => rw [fetchLoop]
    rw [hE]
    simp [if_neg hf]

theorem fetchNet_all_fail (env : Env) (cache : Cache) (k : TileKey) (u : String)
    (hurl : buildTileURL env.provider k.x k.y k.z env.key = .ok u)
    (hf : ∀ n, failedAttempt (env.net k n)) :
    ∃ m, fetchNet env cache k =
      ⟨.error (.runtimeError m), cache,
        [.tileGet k 0, .tileGet k 1, .tileGet k 2, .tileGet k 3], [500, 1000, 2000]⟩ := by
  obtain ⟨m, hm⟩ := fetchLoop_fail_last env k [] cache (500 * 2 * 2 * 2) (hf 3)
  refine ⟨m, ?_⟩
  unfold fetchNet
  rw [hurl,
    fetchLoop_fail_step env k 0 [1, 2, 3] cache 500 (hf 0) (by omega),
    fetchLoop_fail_step env k 1 [2, 3] cache (500 * 2) (hf 1) (by omega),
    fetchLoop_fail_step env k 2 [3] cache (500 * 2 * 2) (hf 2) (by omega),
    hm]

theorem fetch_all_fail (env : Env) (cache : Cache) (x y : Int) (z : Nat) (u : String)
    (hprov : env.provider ≠ "gibs")
    (hmiss : cacheGet cache ⟨env.provider, z, x, y⟩ = none)
    (hurl : buildTileURL env.provider x y z env.key = .ok u)
    (hf : ∀ n, failedAttempt (env.net ⟨env.provider, z, x, y⟩ n)) :
    ∃ m, fetch_tile_async env cache x y z =
      ⟨.error (.runtimeError m), cache,
        [.tileGet ⟨env.provider, z, x, y⟩ 0, .tileGet ⟨env.provider, z, x, y⟩ 1,
          .tileGet ⟨env.provider, z, x, y⟩ 2, .tileGet ⟨env.provider, z, x, y⟩ 3],
        [500, 1000, 2000]⟩ := by
  rw [fetch_miss env cache x y z hprov hmiss]
  exact fetchNet_all_fail env cache ⟨env.provider, z, x, y⟩ u hurl hf

theorem runWorkers_fail_frame (env : Env) (coords : List (Int × Int × Nat)) (cache : Cache)
    (h : ∀ x y z, (∃ e, (fetch_tile_async env cache x y z).result = .error e) ∧
      (fetch_tile_async env cache x y z).cache = cache) :
    (runWorkers env coords cache).outs = List.replicate coords.length placeholderTile ∧
    (runWorkers env coords cache).cache = cache ∧
    (runWorkers env coords cache).warns = coords.length := by
  induction coords with
  | nil => exact ⟨rfl, rfl, rfl⟩
  | cons c rest ih =>
    obtain ⟨x, y, z⟩ := c
    obtain ⟨⟨e, he⟩, hc⟩ := h x y z
    simp only [runWorkers, hc, he]
    exact ⟨by rw [ih.1]; rfl, ih.2.1, by rw [ih.2.2]; rfl⟩

theorem runWorkers_const_err (env : Env) (coords : List (Int × Int × Nat)) (cache : Cache)
    (h : ∀ x y z, ∃ e, fetch_tile_async env cache x y z = ⟨.error e, cache, [], []⟩) :
    runWorkers env coords cache =
      ⟨List.replicate coords.length placeholderTile, cache, [], [], coords.length⟩ := by
  induction coords with
  | nil => rfl
  | cons c rest ih =>
    obtain ⟨x, y, z⟩ := c
    obtain ⟨e, he⟩ := h x y z
    simp only [runWorkers, he, ih]
    exact rfl

/-! ### Quadkey lemmas -/

/-- The quadkey's characters: for loop index `i + 1` the digit uses bit `i`
of `x` and `y`. -/
def quadkeyChars (x y : Nat) : Nat → List Char
  | 0 => []
  | i + 1 =>
    Nat.digitChar ((if x &&& (1 <<< i) ≠ 0 then 1 else 0) + (if y &&& (1 <<< i) ≠ 0 then 2 else 0))
      :: quadkeyChars x y i

theorem foldl_append_data (l : List String) : ∀ s : String,
    (l.foldl (fun r t => r ++ t) s).data = s.data ++ (l.map String.data).flatten := by
  induction l with
  | nil => intro s; simp
  | cons hd tl ih =>
    intro s
    simp only [List.foldl, List.map, List.flatten_cons]
    rw [ih (s ++ hd), String.data_append, List.append_assoc]

theorem join_data (l : List String) : (String.join l).data = (l.map String.data).flatten := by
  have h := foldl_append_data l ""
  simpa [String.join] using h

theorem toString_bit_data (b : Nat) (hb : b < 4) : (toString b).data = [Nat.digitChar b] := by
  interval_cases b <;> rfl

theorem and_shift_ne_zero (x i : Nat) : (x &&& (1 <<< i) ≠ 0) ↔ x.testBit i = true := by
  rw [Nat.one_shiftLeft, Nat.and_two_pow]
  rcases h : x.testBit i with _ | _ <;> simp [h]

theorem quadkeyLoop_chars (x y : Nat) : ∀ z,
    ((quadkeyLoop x y z).map String.data).flatten = quadkeyChars x y z := by
  intro z
  induction z with
  | zero => rfl
  | succ i ih =>
    simp only [quadkeyLoop, List.map, List.flatten_cons, quadkeyChars]
    rw [toString_bit_data _ (by split_ifs <;> norm_num), ih]
    rfl

theorem tile_xy_to_quadkey_data (x y z : Nat) :
    (tile_xy_to_quadkey x y z).data = quadkeyChars x y z := by
  rw [tile_xy_to_quadkey, join_data, quadkeyLoop_chars]

theorem quadkeyChars_length (x y : Nat) : ∀ z, (quadkeyChars x y z).length = z := by
  intro z
  induction z with
  | zero => rfl
  | succ i ih => simp [quadkeyChars, ih]

theorem quadkeyChars_getD (x y : Nat) : ∀ z k, k < z →
    (quadkeyChars x y z).getD k 'X' =
      Nat.digitChar ((if x.testBit (z - 1 - k) = true then 1 else 0) +
        (if y.testBit (z - 1 - k) = true then 2 else 0)) := by
  intro z
  induction z with
  | zero => intro k hk; omega
  | succ i ih =>
    intro k hk
    cases k with
    | zero =>
      show Nat.digitChar _ = _
      simp only [and_shift_ne_zero]
      have hz : i + 1 - 1 - 0 = i := by omega
      rw [hz]
    | succ k0 =>
      have hk0 : k0 < i := by omega
      show (quadkeyChars x y i).getD k0 'X' = _
      rw [ih k0 hk0]
      have hz : i + 1 - 1 - (k0 + 1) = i - 1 - k0 := by omega
      rw [hz]

/-! ### Further helper lemmas -/

theorem stitch_reqs (env : Env) (cache : Cache) (lat lon : ℚ) (zoom radius : Nat)
    (mode : Mode) (store : RowStore) (h : env.provider ≠ "gibs") :
    (stitch_async env cache lat lon zoom radius mode store).reqs =
      (runWorkers env (gridCoords (env.mercantile lon lat zoom).1
        (env.mercantile lon lat zoom).2 zoom radius) cache).reqs := by
  simp only [stitch_async, if_neg h]
  split <;> rfl

theorem stitch_warns (env : Env) (cache : Cache) (lat lon : ℚ) (zoom radius : Nat)
    (mode : Mode) (store : RowStore) (h : env.provider ≠ "gibs") :
    (stitch_async env cache lat lon zoom radius mode store).warns =
      (runWorkers env (gridCoords (env.mercantile lon lat zoom).1
        (env.mercantile lon lat zoom).2 zoom radius) cache).warns := by
  simp only [stitch_async, if_neg h]
  split <;> rfl

theorem fetchNet_url_err (env : Env) (cache : Cache) (k : TileKey) (e : PyErr)
    (hurl : buildTileURL env.provider k.x k.y k.z env.key = .error e) :
    fetchNet env cache k = ⟨.error e, cache, [], []⟩ := by
  unfold fetchNet
  rw [hurl]

theorem buildTileURL_nokey (p : String) (hp : p = "google" ∨ p = "bing")
    (x y : Int) (z : Nat) :
    ∃ m, buildTileURL p x y z none = .error (.valueError m) := by
  rcases hp with rfl | rfl
  · exact ⟨_, rfl⟩
  · exact ⟨_, rfl⟩

theorem gridCoords_zero (cx cy : Int) (zoom : Nat) :
    gridCoords cx cy zoom 0 = [(cx, cy, zoom)] := by
  have h1 : List.range 1 = [0] := rfl
  simp [gridCoords, h1]

theorem getGIBS_reqs (env : Env) (lat lon : ℚ) (zoom : Nat) :
    (getGIBS_WMS env lat lon zoom).2 = [.wmsGet (gibsBBox lat lon zoom)] := by
  unfold getGIBS_WMS
  dsimp only
  rcases hE : env.wms (gibsBBox lat lon zoom) with r | _
  · dsimp only
    by_cases hc : r.status ≠ 200 ∨ r.isImage = false
    · rw [if_pos hc]
    · rw [if_neg hc]
      cases decodeBytes r.body <;> rfl
  · rfl

theorem getGIBS_WMS_wms_only (env env2 : Env) (lat lon : ℚ) (zoom : Nat)
    (h : env2.wms = env.wms) :
    getGIBS_WMS env2 lat lon zoom = getGIBS_WMS env lat lon zoom := by
  unfold getGIBS_WMS
  rw [h]

theorem buildRows_dims (outs : List Img) (side w h : Nat) (hside : 0 < side)
    (hlen : outs.length = side * side)
    (huni : ∀ img ∈ outs, img.width = w ∧ img.height = h) :
    ∀ row ∈ buildRows outs side, row.width = side * w ∧ row.height = h := by
  intro row hrow
  simp only [buildRows, List.mem_map] at hrow
  obtain ⟨r, hr, rfl⟩ := hrow
  rw [List.mem_range] at hr
  have hmem : ∀ c, c < side → outs.getD (r * side + c) (Img.new 0 0 (0, 0, 0)) ∈ outs := by
    intro c hc
    have hidx : r * side + c < outs.length := by
      rw [hlen]
      calc r * side + c < r * side + side := by omega
        _ = (r + 1) * side := by ring
        _ ≤ side * side := Nat.mul_le_mul_right side (by omega)
    rw [List.getD_eq_getElem outs _ hidx]
    exact List.getElem_mem hidx
  constructor
  · rw [hstack_width, List.map_map,
      sum_all_eq _ w (by
        intro b hb
        simp only [List.mem_map, Function.comp] at hb
        obtain ⟨c, hc, rfl⟩ := hb
        rw [List.mem_range] at hc
        exact (huni _ (hmem c hc)).1),
      List.length_map, List.length_range]
  · rw [hstack_height, List.map_map]
    apply maxList_all_eq
    · intro hn
      have hl : (List.map (Img.height ∘ fun c =>
          outs.getD (r * side + c) (Img.new 0 0 (0, 0, 0))) (List.range side)).length = side := by
        rw [List.length_map, List.length_range]
      rw [hn] at hl
      simp only [List.length_nil] at hl
      omega
    · intro b hb
      simp only [List.mem_map, Function.comp] at hb
      obtain ⟨c, hc, rfl⟩ := hb
      rw [List.mem_range] at hc
      exact (huni _ (hmem c hc)).2

/-! ### Claim theorems -/

/-- Claim C2: for every z ≥ 1 and x, y in [0, 2^z), `tile_xy_to_quadkey`
produces, at each position k of the result (most-significant-first), the digit
(bit (z-1-k) of x ? 1 : 0) + (bit (z-1-k) of y ? 2 : 0); the result's length
equals z, quadkey(0,0,1) = "0" and quadkey(1,1,1) = "3". -/
theorem claim_c2_quadkey_digits (z x y k : Nat) (hz : 1 ≤ z) (hx : x < 2 ^ z)
    (hy : y < 2 ^ z) (hk : k < z) :
    (tile_xy_to_quadkey x y z).length = z ∧
    (tile_xy_to_quadkey x y z).data.getD k 'X' =
      Nat.digitChar ((if x.testBit (z - 1 - k) = true then 1 else 0) +
        (if y.testBit (z - 1 - k) = true then 2 else 0)) ∧
    tile_xy_to_quadkey 0 0 1 = "0" ∧ tile_xy_to_quadkey 1 1 1 = "3" := by
  refine ⟨?_, ?_, ?_, ?_⟩
  · show (tile_xy_to_quadkey x y z).data.length = z
    rw [tile_xy_to_quadkey_data, quadkeyChars_length]
  · rw [tile_xy_to_quadkey_data, quadkeyChars_getD x y z k hk]
  · rfl
  · rfl

/-- Witness for C2 at z = 2, x = 2, y = 3, k = 1. -/
theorem claim_c2_quadkey_digits_witness :
    (1 ≤ 2 ∧ 2 < 2 ^ 2 ∧ 3 < 2 ^ 2 ∧ 1 < 2) ∧
    ((tile_xy_to_quadkey 2 3 2).length = 2 ∧
      (tile_xy_to_quadkey 2 3 2).data.getD 1 'X' =
        Nat.digitChar ((if Nat.testBit 2 (2 - 1 - 1) = true then 1 else 0) +
          (if Nat.testBit 3 (2 - 1 - 1) = true then 2 else 0)) ∧
      tile_xy_to_quadkey 0 0 1 = "0" ∧ tile_xy_to_quadkey 1 1 1 = "3") :=
  ⟨⟨by decide, by decide, by decide, by decide⟩,
    claim_c2_quadkey_digits 2 2 3 1 (by decide) (by decide) (by decide) (by decide)⟩

/-- The standard cache layout holding one cached tile at
`cache_root/esri/10/5/3.jpg`. -/
def oneTileCacheTree : List FsEntry :=
  [.dir "esri" [.dir "10" [.dir "5" [.file "3.jpg"]]]]

/-- Claim C9 (code bug): `clear_cache` is claimed to recursively delete all
cached files and complete without raising, but on the standard nested layout
`provider/zoom/x/y.jpg` the loop calls `Path.unlink()` on the zoom directory,
which raises `IsADirectoryError`. -/
theorem claim_c9_clear_cache_raises :
    clear_cache oneTileCacheTree = .error .isADirectoryError := by
  rfl

/-- Claim C10: for provider gibs, `getTiles` leaves the cache untouched,
issues exactly one WMS GetMap request (for the bbox computed from lat, lon
and the zoom span table), records no sleeps, and its result is unchanged by
the `key` and `force` arguments and by the cache contents. -/
theorem claim_c10_gibs_wms_frame (env env2 : Env) (cache cache2 : Cache)
    (lat lon : ℚ) (zoom : Nat)
    (hp : env.provider = "gibs") (hp2 : env2.provider = "gibs")
    (hw : env2.wms = env.wms) :
    getTiles env cache lat lon zoom =
      ((getGIBS_WMS env lat lon zoom).1, cache, [.wmsGet (gibsBBox lat lon zoom)], []) ∧
    (getTiles env2 cache2 lat lon zoom).1 = (getTiles env cache lat lon zoom).1 := by
  constructor
  · simp only [getTiles, if_pos hp, getGIBS_reqs]
  · simp only [getTiles, if_pos hp, if_pos hp2,
      getGIBS_WMS_wms_only env env2 lat lon zoom hw]

/-- A 2×3 test image. -/
def tinyImg : Img := Img.new 2 3 (1, 2, 3)

/-- A gibs environment; tile GETs are never consulted on the gibs path. -/
def gibsEnv1 : Env :=
  { provider := "gibs", key := none, force := false,
    net := fun _ _ => .transportError,
    wms := fun _ => .resp ⟨200, true, .good tinyImg⟩,
    mercantile := fun _ _ _ => (0, 0) }

/-- The same WMS world as `gibsEnv1` but with a key, `force := True`, and
different tile-net and mercantile behaviour. -/
def gibsEnv2 : Env :=
  { provider := "gibs", key := some "k", force := true,
    net := fun _ _ => .resp ⟨404, false, .bad⟩,
    wms := gibsEnv1.wms,
    mercantile := fun _ _ _ => (7, 9) }

/-- Witness for C10 with two gibs environments differing in key and force,
and two different caches. -/
theorem claim_c10_gibs_wms_frame_witness :
    (gibsEnv1.provider = "gibs" ∧ gibsEnv2.provider = "gibs" ∧
      gibsEnv2.wms = gibsEnv1.wms) ∧
    (getTiles gibsEnv1 [] 10 20 3 =
      ((getGIBS_WMS gibsEnv1 10 20 3).1, [], [.wmsGet (gibsBBox 10 20 3)], []) ∧
    (getTiles gibsEnv2 [(⟨"esri", 3, 0, 0⟩, Bytes.bad)] 10 20 3).1 =
      (getTiles gibsEnv1 [] 10 20 3).1) :=
  ⟨⟨rfl, rfl, rfl⟩,
    claim_c10_gibs_wms_frame gibsEnv1 gibsEnv2 [] [(⟨"esri", 3, 0, 0⟩, Bytes.bad)]
      10 20 3 rfl rfl rfl⟩

/-- Claim C5: for identical per-tile inputs, `getMegaStitchedTiles` in disk
mode returns a mosaic pixel-identical to the one returned in memory mode
(for any environment, cache, geometry and initial row-file store). -/
theorem claim_c5_disk_eq_memory (env : Env) (cache : Cache) (lat lon : ℚ)
    (zoom radius : Nat) (store : RowStore) :
    (getMegaStitchedTiles env cache lat lon zoom radius .disk store).result =
    (getMegaStitchedTiles env cache lat lon zoom radius .memory store).result := by
  by_cases h : env.provider = "gibs"
  · simp [getMegaStitchedTiles, stitch_async, h]
  · rw [getMegaStitchedTiles, getMegaStitchedTiles,
      stitch_result env cache lat lon zoom radius .disk store h,
      stitch_result env cache lat lon zoom radius .memory store h]

/-- Claim C6: after a tile's bytes have been written to the cache by a
successful fetch, a subsequent fetch of the same key without `force` returns
the cached image immediately, performs zero network requests and zero sleeps,
and leaves the cache unchanged. -/
theorem claim_c6_cache_hit_no_network (env : Env) (cache : Cache) (x y : Int)
    (z : Nat) (b : Bytes) (img : Img) (u : String)
    (hprov : env.provider ≠ "gibs")
    (hmiss : cacheGet cache ⟨env.provider, z, x, y⟩ = none)
    (hurl : buildTileURL env.provider x y z env.key = .ok u)
    (hnet : env.net ⟨env.provider, z, x, y⟩ 0 = .resp ⟨200, true, b⟩)
    (hdec : decodeBytes b = some img) :
    (fetch_tile_async env cache x y z).result = .ok img ∧
    cacheGet (fetch_tile_async env cache x y z).cache ⟨env.provider, z, x, y⟩ = some b ∧
    fetch_tile_async { env with force := false } (fetch_tile_async env cache x y z).cache x y z =
      ⟨.ok img, (fetch_tile_async env cache x y z).cache, [], []⟩ := by
  have h1 : fetch_tile_async env cache x y z =
      ⟨.ok img, cachePut cache ⟨env.provider, z, x, y⟩ b,
        [.tileGet ⟨env.provider, z, x, y⟩ 0], []⟩ := by
    rw [fetch_miss env cache x y z hprov hmiss,
      fetchNet_first_good env cache ⟨env.provider, z, x, y⟩ u b hurl hnet, hdec]
  rw [h1]
  refine ⟨rfl, cacheGet_put_self cache ⟨env.provider, z, x, y⟩ b, ?_⟩
  exact fetch_hit { env with force := false } _ x y z b img hprov rfl
    (cacheGet_put_self cache ⟨env.provider, z, x, y⟩ b) hdec

/-- An esri environment whose first GET for any tile succeeds with a decodable body. -/
def esriOkEnv : Env :=
  { provider := "esri", key := none, force := false,
    net := fun _ _ => .resp ⟨200, true, .good tinyImg⟩,
    wms := fun _ => .transportError,
    mercantile := fun _ _ _ => (3, 5) }

theorem claim_c6_cache_hit_no_network_witness :
    (esriOkEnv.provider ≠ "gibs" ∧
      cacheGet [] ⟨esriOkEnv.provider, 7, 3, 5⟩ = none ∧
      buildTileURL esriOkEnv.provider 3 5 7 esriOkEnv.key = .ok (esri_url 3 5 7) ∧
      esriOkEnv.net ⟨esriOkEnv.provider, 7, 3, 5⟩ 0 = .resp ⟨200, true, .good tinyImg⟩ ∧
      decodeBytes (.good tinyImg) = some tinyImg) ∧
    ((fetch_tile_async esriOkEnv [] 3 5 7).result = .ok tinyImg ∧
      cacheGet (fetch_tile_async esriOkEnv [] 3 5 7).cache ⟨esriOkEnv.provider, 7, 3, 5⟩ =
        some (.good tinyImg) ∧
      fetch_tile_async { esriOkEnv with force := false }
          (fetch_tile_async esriOkEnv [] 3 5 7).cache 3 5 7 =
        ⟨.ok tinyImg, (fetch_tile_async esriOkEnv [] 3 5 7).cache, [], []⟩) :=
  ⟨⟨by simp [esriOkEnv], rfl, rfl, rfl, rfl⟩,
    claim_c6_cache_hit_no_network esriOkEnv [] 3 5 7 (.good tinyImg) tinyImg
      (esri_url 3 5 7) (by simp [esriOkEnv]) rfl rfl rfl rfl⟩

/-- Claim C7: a cached entry that fails to decode is deleted and refetched:
with a corrupt entry under the key and a good first network response, the
fetch returns the freshly decoded image, issues exactly one network request,
and leaves a fresh decodable cache entry — no error surfaces. -/
theorem claim_c7_corrupt_cache_selfheal (env : Env) (cache : Cache) (x y : Int)
    (z : Nat) (b body : Bytes) (img : Img) (u : String)
    (hprov : env.provider ≠ "gibs") (hforce : env.force = false)
    (hhit : cacheGet cache ⟨env.provider, z, x, y⟩ = some b)
    (hcor : decodeBytes b = none)
    (hurl : buildTileURL env.provider x y z env.key = .ok u)
    (hnet : env.net ⟨env.provider, z, x, y⟩ 0 = .resp ⟨200, true, body⟩)
    (hdec : decodeBytes body = some img) :
    fetch_tile_async env cache x y z =
      ⟨.ok img, cachePut (cacheDel cache ⟨env.provider, z, x, y⟩) ⟨env.provider, z, x, y⟩ body,
        [.tileGet ⟨env.provider, z, x, y⟩ 0], []⟩ ∧
    cacheGet (fetch_tile_async env cache x y z).cache ⟨env.provider, z, x, y⟩ = some body := by
  have h1 : fetch_tile_async env cache x y z =
      ⟨.ok img, cachePut (cacheDel cache ⟨env.provider, z, x, y⟩) ⟨env.provider, z, x, y⟩ body,
        [.tileGet ⟨env.provider, z, x, y⟩ 0], []⟩ := by
    rw [fetch_corrupt env cache x y z b hprov hforce hhit hcor,
      fetchNet_first_good env _ ⟨env.provider, z, x, y⟩ u body hurl hnet, hdec]
  refine ⟨h1, ?_⟩
  rw [h1]
  exact cacheGet_put_self _ _ _

/-- Witness for C7: a corrupt cached entry for the esri tile (3, 5) at z = 7,
healed by one good fetch. -/
theorem claim_c7_corrupt_cache_selfheal_witness :
    (esriOkEnv.provider ≠ "gibs" ∧ esriOkEnv.force = false ∧
      cacheGet [(⟨"esri", 7, 3, 5⟩, Bytes.bad)] ⟨esriOkEnv.provider, 7, 3, 5⟩ = some .bad ∧
      decodeBytes .bad = none ∧
      buildTileURL esriOkEnv.provider 3 5 7 esriOkEnv.key = .ok (esri_url 3 5 7) ∧
      esriOkEnv.net ⟨esriOkEnv.provider, 7, 3, 5⟩ 0 = .resp ⟨200, true, .good tinyImg⟩ ∧
      decodeBytes (.good tinyImg) = some tinyImg) ∧
    (fetch_tile_async esriOkEnv [(⟨"esri", 7, 3, 5⟩, Bytes.bad)] 3 5 7 =
      ⟨.ok tinyImg,
        cachePut (cacheDel [(⟨"esri", 7, 3, 5⟩, Bytes.bad)] ⟨esriOkEnv.provider, 7, 3, 5⟩)
          ⟨esriOkEnv.provider, 7, 3, 5⟩ (.good tinyImg),
        [.tileGet ⟨esriOkEnv.provider, 7, 3, 5⟩ 0], []⟩ ∧
      cacheGet (fetch_tile_async esriOkEnv [(⟨"esri", 7, 3, 5⟩, Bytes.bad)] 3 5 7).cache
        ⟨esriOkEnv.provider, 7, 3, 5⟩ = some (.good tinyImg)) :=
  ⟨⟨by simp [esriOkEnv], rfl, rfl, rfl, rfl, rfl, rfl⟩,
    claim_c7_corrupt_cache_selfheal esriOkEnv [(⟨"esri", 7, 3, 5⟩, Bytes.bad)] 3 5 7
      .bad (.good tinyImg) tinyImg (esri_url 3 5 7)
      (by simp [esriOkEnv]) rfl rfl rfl rfl rfl rfl⟩

/-- Claim C3: for every non-gibs provider and radius, when all per-tile
outcomes are uniformly w×h, the mosaic of `getMegaStitchedTiles` (memory or
disk) exists and has pixel width (2r+1)·w and height (2r+1)·h. -/
theorem claim_c3_mosaic_dimensions (env : Env) (cache : Cache) (lat lon : ℚ)
    (zoom radius : Nat) (mode : Mode) (store : RowStore) (w h : Nat)
    (hprov : env.provider ≠ "gibs")
    (huni : ∀ img ∈ (runWorkers env (gridCoords (env.mercantile lon lat zoom).1
      (env.mercantile lon lat zoom).2 zoom radius) cache).outs,
      img.width = w ∧ img.height = h) :
    ∃ m, (getMegaStitchedTiles env cache lat lon zoom radius mode store).result = .ok m ∧
      m.width = (2 * radius + 1) * w ∧ m.height = (2 * radius + 1) * h := by
  have h21 : radius * 2 + 1 = 2 * radius + 1 := by ring
  set outs := (runWorkers env (gridCoords (env.mercantile lon lat zoom).1
    (env.mercantile lon lat zoom).2 zoom radius) cache).outs with houts
  have hlen : outs.length = (2 * radius + 1) * (2 * radius + 1) := by
    rw [houts, runWorkers_length, gridCoords_length]
  have hside : 0 < 2 * radius + 1 := by omega
  have hrows := buildRows_dims outs (2 * radius + 1) w h hside hlen huni
  refine ⟨vstack (buildRows outs (radius * 2 + 1)), ?_, ?_, ?_⟩
  · rw [getMegaStitchedTiles, stitch_result env cache lat lon zoom radius mode store hprov]
  · rw [vstack_width, h21]
    apply maxList_all_eq
    · intro hn
      have hl : ((buildRows outs (2 * radius + 1)).map Img.width).length = 2 * radius + 1 := by
        rw [List.length_map, buildRows_length]
      rw [hn] at hl
      simp only [List.length_nil] at hl
      omega
    · intro b hb
      rw [List.mem_map] at hb
      obtain ⟨row, hrow, rfl⟩ := hb
      exact (hrows row hrow).1
  · rw [vstack_height, h21, sum_all_eq _ h (fun b hb => by
      rw [List.mem_map] at hb
      obtain ⟨row, hrow, rfl⟩ := hb
      exact (hrows row hrow).2), List.length_map, buildRows_length]

/-- An esri environment whose every tile GET fails with status 500. -/
def esriFailEnv : Env :=
  { provider := "esri", key := none, force := false,
    net := fun _ _ => .resp ⟨500, false, .bad⟩,
    wms := fun _ => .transportError,
    mercantile := fun _ _ _ => (3, 5) }

/-- Witness for C3: with every fetch failing, all outcomes are the 256×256
placeholder, so a radius-0 mosaic is 256×256. -/
theorem claim_c3_mosaic_dimensions_witness :
    (esriFailEnv.provider ≠ "gibs" ∧
      (∀ img ∈ (runWorkers esriFailEnv (gridCoords (esriFailEnv.mercantile 0 0 7).1
        (esriFailEnv.mercantile 0 0 7).2 7 0) []).outs,
        img.width = 256 ∧ img.height = 256)) ∧
    (∃ m, (getMegaStitchedTiles esriFailEnv [] 0 0 7 0 .memory []).result = .ok m ∧
      m.width = (2 * 0 + 1) * 256 ∧ m.height = (2 * 0 + 1) * 256) :=
  ⟨⟨by simp [esriFailEnv], by decide⟩,
    claim_c3_mosaic_dimensions esriFailEnv [] 0 0 7 0 .memory [] 256 256
      (by simp [esriFailEnv]) (by decide)⟩

/-- An esri environment whose GETs return 200 with image content type but an
undecodable body. -/
def esriBadBodyEnv : Env :=
  { provider := "esri", key := none, force := false,
    net := fun _ _ => .resp ⟨200, true, .bad⟩,
    wms := fun _ => .transportError,
    mercantile := fun _ _ _ => (3, 5) }

/-- Counterexample to C8 as stated: a first response with status 200 and image
content type but undecodable bytes is NOT retried — the fetch raises after a
single network request, with no backoff sleep. -/
theorem claim_c8_counterexample :
    (fetch_tile_async esriBadBodyEnv [] 3 5 7).result = .error .decodeError ∧
    (fetch_tile_async esriBadBodyEnv [] 3 5 7).reqs = [.tileGet ⟨"esri", 7, 3, 5⟩ 0] ∧
    (fetch_tile_async esriBadBodyEnv [] 3 5 7).sleeps = [] :=
  ⟨rfl, rfl, rfl⟩

/-- Claim C8 amended: a decode failure on a freshly fetched response (status
200, image content type, undecodable bytes) is not retried: the exception
propagates from the fetch after exactly one network request and no sleeps,
with the undecodable bytes already written to the cache; in a mosaic request
the worker catches it and the tile degrades to a placeholder, so the stitched
call still returns a mosaic. -/
theorem claim_c8_amended_decode_no_retry (env : Env) (cache : Cache) (x y : Int)
    (z : Nat) (b : Bytes) (u : String) (lat lon : ℚ) (mode : Mode) (store : RowStore)
    (hprov : env.provider ≠ "gibs")
    (hmiss : cacheGet cache ⟨env.provider, z, x, y⟩ = none)
    (hurl : buildTileURL env.provider x y z env.key = .ok u)
    (hnet : env.net ⟨env.provider, z, x, y⟩ 0 = .resp ⟨200, true, b⟩)
    (hbad : decodeBytes b = none)
    (hmerc : env.mercantile lon lat z = (x, y)) :
    fetch_tile_async env cache x y z =
      ⟨.error .decodeError, cachePut cache ⟨env.provider, z, x, y⟩ b,
        [.tileGet ⟨env.provider, z, x, y⟩ 0], []⟩ ∧
    (runWorkers env (gridCoords x y z 0) cache).outs = [placeholderTile] ∧
    (stitch_async env cache lat lon z 0 mode store).result =
      .ok (vstack (buildRows [placeholderTile] 1)) := by
  have h1 : fetch_tile_async env cache x y z =
      ⟨.error .decodeError, cachePut cache ⟨env.provider, z, x, y⟩ b,
        [.tileGet ⟨env.provider, z, x, y⟩ 0], []⟩ := by
    rw [fetch_miss env cache x y z hprov hmiss,
      fetchNet_first_good env cache ⟨env.provider, z, x, y⟩ u b hurl hnet, hbad]
  have h2 : (runWorkers env (gridCoords x y z 0) cache).outs = [placeholderTile] := by
    rw [gridCoords_zero]
    simp only [runWorkers, h1]
  refine ⟨h1, h2, ?_⟩
  rw [stitch_result env cache lat lon z 0 mode store hprov, hmerc]
  show Except.ok (vstack (buildRows
    (runWorkers env (gridCoords x y z 0) cache).outs (0 * 2 + 1))) = _
  rw [h2]

/-- Witness for C8 amended: the esri tile (3, 5) at z = 7 with a bad body. -/
theorem claim_c8_amended_decode_no_retry_witness :
    (esriBadBodyEnv.provider ≠ "gibs" ∧
      cacheGet [] ⟨esriBadBodyEnv.provider, 7, 3, 5⟩ = none ∧
      buildTileURL esriBadBodyEnv.provider 3 5 7 esriBadBodyEnv.key = .ok (esri_url 3 5 7) ∧
      esriBadBodyEnv.net ⟨esriBadBodyEnv.provider, 7, 3, 5⟩ 0 = .resp ⟨200, true, .bad⟩ ∧
      decodeBytes .bad = none ∧
      esriBadBodyEnv.mercantile 0 0 7 = (3, 5)) ∧
    (fetch_tile_async esriBadBodyEnv [] 3 5 7 =
      ⟨.error .decodeError, cachePut [] ⟨esriBadBodyEnv.provider, 7, 3, 5⟩ .bad,
        [.tileGet ⟨esriBadBodyEnv.provider, 7, 3, 5⟩ 0], []⟩ ∧
      (runWorkers esriBadBodyEnv (gridCoords 3 5 7 0) []).outs = [placeholderTile] ∧
      (stitch_async esriBadBodyEnv [] 0 0 7 0 .memory []).result =
        .ok (vstack (buildRows [placeholderTile] 1))) :=
  ⟨⟨by simp [esriBadBodyEnv], rfl, rfl, rfl, rfl, rfl⟩,
    claim_c8_amended_decode_no_retry esriBadBodyEnv [] 3 5 7 .bad (esri_url 3 5 7)
      0 0 .memory [] (by simp [esriBadBodyEnv]) rfl rfl rfl rfl rfl⟩

/-- A google environment with no API key. -/
def googleNoKeyEnv : Env :=
  { provider := "google", key := none, force := false,
    net := fun _ _ => .transportError,
    wms := fun _ => .transportError,
    mercantile := fun _ _ _ => (0, 0) }

/-- Counterexample to C4 as stated: a mosaic request for google without an
API key does not raise a configuration error to the caller — it returns a
mosaic image (every tile a placeholder, zero network requests). -/
theorem claim_c4_counterexample :
    (stitch_async googleNoKeyEnv [] 0 0 10 0 .memory []).result =
      .ok (vstack (buildRows [placeholderTile] 1)) ∧
    (stitch_async googleNoKeyEnv [] 0 0 10 0 .memory []).reqs = [] :=
  ⟨rfl, rfl⟩

/-- Claim C4 amended: construction with provider "osm" raises `ValueError`
immediately; a stitched request against gibs raises `RuntimeError` before any
network request; a single-tile fetch for google/bing without a key raises
`ValueError` before any network request; but in a mosaic request the missing
key error is caught per tile: the call returns an all-placeholder mosaic with
zero network requests instead of raising. -/
theorem claim_c4_amended_config_errors (p : String) (envG envM : Env)
    (cache cacheM : Cache) (lat lon : ℚ) (zoom radius : Nat) (mode : Mode)
    (store : RowStore) (x y : Int)
    (hosm : pyLower p = "osm")
    (hg : envG.provider = "gibs")
    (hm : envM.provider = "google" ∨ envM.provider = "bing")
    (hkey : envM.key = none)
    (hmiss : ∀ k, cacheGet cacheM k = none) :
    (∃ m, imagenInit p = .error (.valueError m)) ∧
    (∃ m, stitch_async envG cache lat lon zoom radius mode store =
      ⟨.error (.runtimeError m), cache, [], [], 0, store⟩) ∧
    (∃ m, fetch_tile_async envM cacheM x y zoom =
      ⟨.error (.valueError m), cacheM, [], []⟩) ∧
    (stitch_async envM cacheM lat lon zoom radius mode store).result =
      .ok (vstack (buildRows
        (List.replicate ((2 * radius + 1) * (2 * radius + 1)) placeholderTile)
        (radius * 2 + 1))) ∧
    (stitch_async envM cacheM lat lon zoom radius mode store).reqs = [] ∧
    (runWorkers envM (gridCoords (envM.mercantile lon lat zoom).1
        (envM.mercantile lon lat zoom).2 zoom radius) cacheM).outs =
      List.replicate ((2 * radius + 1) * (2 * radius + 1)) placeholderTile := by
  have hprovM : envM.provider ≠ "gibs" := by
    rcases hm with h | h <;> rw [h] <;> decide
  have hfetch : ∀ x0 y0 : Int, ∀ z0 : Nat, ∃ e,
      fetch_tile_async envM cacheM x0 y0 z0 = ⟨.error e, cacheM, [], []⟩ := by
    intro x0 y0 z0
    obtain ⟨m0, hm0⟩ := buildTileURL_nokey envM.provider hm x0 y0 z0
    refine ⟨.valueError m0, ?_⟩
    rw [fetch_miss envM cacheM x0 y0 z0 hprovM (hmiss _),
      fetchNet_url_err envM cacheM ⟨envM.provider, z0, x0, y0⟩ (.valueError m0)
        (by rw [hkey]; exact hm0)]
  have hpool := runWorkers_const_err envM (gridCoords (envM.mercantile lon lat zoom).1
    (envM.mercantile lon lat zoom).2 zoom radius) cacheM hfetch
  rw [gridCoords_length] at hpool
  refine ⟨?_, ?_, ?_, ?_, ?_, ?_⟩
  · refine ⟨"OSM cannot be used programmatically; choose esri/google/bing/gibs.", ?_⟩
    unfold imagenInit
    rw [if_pos hosm]
  · refine ⟨"GIBS does not support stitched tiles. Use ESRI/Google/Bing for stitching.", ?_⟩
    unfold stitch_async
    rw [if_pos hg]
  · obtain ⟨e, he⟩ := hfetch x y zoom
    obtain ⟨m0, hm0⟩ := buildTileURL_nokey envM.provider hm x y zoom
    refine ⟨m0, ?_⟩
    rw [fetch_miss envM cacheM x y zoom hprovM (hmiss _),
      fetchNet_url_err envM cacheM ⟨envM.provider, zoom, x, y⟩ (.valueError m0)
        (by rw [hkey]; exact hm0)]
  · rw [stitch_result envM cacheM lat lon zoom radius mode store hprovM, hpool]
  · rw [stitch_reqs envM cacheM lat lon zoom radius mode store hprovM, hpool]
  · rw [hpool]

/-- Witness for C4 amended with provider "OSM" at construction, a gibs
environment for the stitch refusal, and a keyless google environment for the
mosaic degradation, at radius 0. -/
theorem claim_c4_amended_config_errors_witness :
    (pyLower "OSM" = "osm" ∧ gibsEnv1.provider = "gibs" ∧
      (googleNoKeyEnv.provider = "google" ∨ googleNoKeyEnv.provider = "bing") ∧
      googleNoKeyEnv.key = none ∧ (∀ k, cacheGet [] k = none)) ∧
    ((∃ m, imagenInit "OSM" = .error (.valueError m)) ∧
      (∃ m, stitch_async gibsEnv1 [] 0 0 10 0 .memory [] =
        ⟨.error (.runtimeError m), [], [], [], 0, []⟩) ∧
      (∃ m, fetch_tile_async googleNoKeyEnv [] 0 0 10 =
        ⟨.error (.valueError m), [], [], []⟩) ∧
      (stitch_async googleNoKeyEnv [] 0 0 10 0 .memory []).result =
        .ok (vstack (buildRows
          (List.replicate ((2 * 0 + 1) * (2 * 0 + 1)) placeholderTile) (0 * 2 + 1))) ∧
      (stitch_async googleNoKeyEnv [] 0 0 10 0 .memory []).reqs = [] ∧
      (runWorkers googleNoKeyEnv (gridCoords (googleNoKeyEnv.mercantile 0 0 10).1
          (googleNoKeyEnv.mercantile 0 0 10).2 10 0) []).outs =
        List.replicate ((2 * 0 + 1) * (2 * 0 + 1)) placeholderTile) :=
  ⟨⟨by decide, rfl, Or.inl rfl, rfl, fun _ => rfl⟩,
    claim_c4_amended_config_errors "OSM" gibsEnv1 googleNoKeyEnv [] [] 0 0 10 0
      .memory [] 0 0 (by decide) rfl (Or.inl rfl) rfl (fun _ => rfl)⟩

/-- Claim C1: for a stitching provider (esri, google, bing) with a cache miss,
a tile whose every network attempt fails is tried exactly four times with
sleeps d, 2d, 4d (d = 500 ms) and then raises; in a mosaic request each such
tile's outcome is the 256×256 placeholder recorded with a warning, every grid
index gets an outcome, and the stitched call returns a mosaic without
raising. -/
theorem claim_c1_retry_backoff_placeholder (env : Env) (cache : Cache) (x y : Int)
    (z : Nat) (lat lon : ℚ) (zoom radius : Nat) (mode : Mode) (store : RowStore)
    (hprov : env.provider = "esri" ∨ env.provider = "google" ∨ env.provider = "bing")
    (hurl : ∀ (x0 y0 : Int) (z0 : Nat), ∃ u0, buildTileURL env.provider x0 y0 z0 env.key = .ok u0)
    (hmiss : ∀ k, cacheGet cache k = none)
    (hfail : ∀ k n, failedAttempt (env.net k n)) :
    (∃ m, fetch_tile_async env cache x y z =
      ⟨.error (.runtimeError m), cache,
        [.tileGet ⟨env.provider, z, x, y⟩ 0, .tileGet ⟨env.provider, z, x, y⟩ 1,
          .tileGet ⟨env.provider, z, x, y⟩ 2, .tileGet ⟨env.provider, z, x, y⟩ 3],
        [500, 1000, 2000]⟩) ∧
    (runWorkers env (gridCoords (env.mercantile lon lat zoom).1
        (env.mercantile lon lat zoom).2 zoom radius) cache).outs =
      List.replicate ((2 * radius + 1) * (2 * radius + 1)) placeholderTile ∧
    (runWorkers env (gridCoords (env.mercantile lon lat zoom).1
        (env.mercantile lon lat zoom).2 zoom radius) cache).warns =
      (2 * radius + 1) * (2 * radius + 1) ∧
    (stitch_async env cache lat lon zoom radius mode store).result =
      .ok (vstack (buildRows
        (List.replicate ((2 * radius + 1) * (2 * radius + 1)) placeholderTile)
        (radius * 2 + 1))) ∧
    (stitch_async env cache lat lon zoom radius mode store).warns =
      (2 * radius + 1) * (2 * radius + 1) := by
  have hprovg : env.provider ≠ "gibs" := by
    rcases hprov with h | h | h <;> rw [h] <;> decide
  have hframe : ∀ (x0 y0 : Int) (z0 : Nat),
      (∃ e, (fetch_tile_async env cache x0 y0 z0).result = .error e) ∧
      (fetch_tile_async env cache x0 y0 z0).cache = cache := by
    intro x0 y0 z0
    obtain ⟨u0, hu0⟩ := hurl x0 y0 z0
    obtain ⟨m0, hf0⟩ := fetch_all_fail env cache x0 y0 z0 u0 hprovg (hmiss _) hu0
      (fun n => hfail _ n)
    rw [hf0]
    exact ⟨⟨_, rfl⟩, rfl⟩
  have hpool := runWorkers_fail_frame env (gridCoords (env.mercantile lon lat zoom).1
    (env.mercantile lon lat zoom).2 zoom radius) cache hframe
  rw [gridCoords_length] at hpool
  obtain ⟨u, hu⟩ := hurl x y z
  obtain ⟨m, hm⟩ := fetch_all_fail env cache x y z u hprovg (hmiss _) hu (fun n => hfail _ n)
  refine ⟨⟨m, hm⟩, hpool.1, hpool.2.2, ?_, ?_⟩
  · rw [stitch_result env cache lat lon zoom radius mode store hprovg, hpool.1]
  · rw [stitch_warns env cache lat lon zoom radius mode store hprovg, hpool.2.2]

/-- Witness for C1: the always-failing esri environment at radius 1. -/
theorem claim_c1_retry_backoff_placeholder_witness :
    ((esriFailEnv.provider = "esri" ∨ esriFailEnv.provider = "google" ∨
        esriFailEnv.provider = "bing") ∧
      (∀ (x0 y0 : Int) (z0 : Nat), ∃ u0,
        buildTileURL esriFailEnv.provider x0 y0 z0 esriFailEnv.key = .ok u0) ∧
      (∀ k, cacheGet [] k = none) ∧
      (∀ k n, failedAttempt (esriFailEnv.net k n))) ∧
    ((∃ m, fetch_tile_async esriFailEnv [] 3 5 7 =
      ⟨.error (.runtimeError m), [],
        [.tileGet ⟨esriFailEnv.provider, 7, 3, 5⟩ 0, .tileGet ⟨esriFailEnv.provider, 7, 3, 5⟩ 1,
          .tileGet ⟨esriFailEnv.provider, 7, 3, 5⟩ 2, .tileGet ⟨esriFailEnv.provider, 7, 3, 5⟩ 3],
        [500, 1000, 2000]⟩) ∧
    (runWorkers esriFailEnv (gridCoords (esriFailEnv.mercantile 0 0 7).1
        (esriFailEnv.mercantile 0 0 7).2 7 1) []).outs =
      List.replicate ((2 * 1 + 1) * (2 * 1 + 1)) placeholderTile ∧
    (runWorkers esriFailEnv (gridCoords (esriFailEnv.mercantile 0 0 7).1
        (esriFailEnv.mercantile 0 0 7).2 7 1) []).warns = (2 * 1 + 1) * (2 * 1 + 1) ∧
    (stitch_async esriFailEnv [] 0 0 7 1 .memory []).result =
      .ok (vstack (buildRows
        (List.replicate ((2 * 1 + 1) * (2 * 1 + 1)) placeholderTile) (1 * 2 + 1))) ∧
    (stitch_async esriFailEnv [] 0 0 7 1 .memory []).warns = (2 * 1 + 1) * (2 * 1 + 1)) :=
  ⟨⟨Or.inl rfl, fun x0 y0 z0 => ⟨esri_url x0 y0 z0, rfl⟩, fun _ => rfl,
      fun k n => by simp [esriFailEnv, failedAttempt]⟩,
    claim_c1_retry_backoff_placeholder esriFailEnv [] 3 5 7 0 0 7 1 .memory []
      (Or.inl rfl) (fun x0 y0 z0 => ⟨esri_url x0 y0 z0, rfl⟩) (fun _ => rfl)
      (fun k n => by simp [esriFailEnv, failedAttempt])⟩
